import Mathlib

/-!
Verification of the event-normalization and connection-lifecycle layer of
`src/web/app.js` (browser client for a SignalWire AI agent).

The JavaScript is shallowly embedded: JS values flowing through the event
handlers are modelled by an inductive `Json` type (with `null` standing for
both JS `null` and `undefined`, which the code never distinguishes — both are
falsy, both fail the `typeof x === 'string'` test, and both trigger `||`
defaults); JS truthiness is `truthy`; property access `o.k` is `getField`;
the `a || b` defaulting idiom is `jsOr`.  The mutable globals
(`client`, `roomSession`, `currentToken`, `currentDestination`,
`isConnected`) together with the DOM sinks the code writes to (status region,
buttons, placeholder, value displays, event log) form the explicit state
`AppState`, and each source function becomes a state transformer.  The
asynchronous external operations of `connect` (token fetch, client init,
subscriptions, dial, session subscriptions, start) are an oracle
`ConnectEnv` of `Except` results.  Wall-clock timestamps and the transient
highlight timers are rendering-only and are not part of the state.
-/

namespace App

/-- JS values as they appear in event payloads.  Numbers are modelled as
integers (every number in the code's event vocabulary is integral); `null`
also stands for `undefined`. -/
inductive Json where
  | null : Json
  | bool (b : Bool) : Json
  | num (n : Int) : Json
  | str (s : String) : Json
  | obj (fields : List (String × Json)) : Json

/-- JS truthiness: `null`/`undefined`, `false`, `0` and `""` are falsy;
objects are always truthy. -/
def truthy : Json → Bool
  | .null => false
  | .bool b => b
  | .num n => n != 0
  | .str s => s != ""
  | .obj _ => true

/-- Property access `o.k`: on an object, the first binding of key `k`
(or `undefined`, modelled `.null`, when absent); on any non-object the
accesses the code performs yield `undefined` (the code always guards with
`o && o.k`, so the null/undefined throwing case is never reached). -/
def getField : Json → String → Json
  | .obj fs, k => (fs.lookup k).getD .null
  | _, _ => .null

/-- The JS `a || b` defaulting idiom. -/
def jsOr (a b : Json) : Json := if truthy a then a else b

/-- String interpolation of a JS value, as used in the log messages. -/
def render : Json → String
  | .null => "null"
  | .bool true => "true"
  | .bool false => "false"
  | .num n => toString n
  | .str s => s
  | .obj _ => "[object Object]"

/-- The normalized application events (spec §3).  Field payloads stay `Json`
because the source passes them through untyped; `unknown` carries the raw
type string, which is all the code surfaces to the log. -/
inductive ApplicationEvent where
  | greeting (name : Json) : ApplicationEvent
  | echo (message : Json) : ApplicationEvent
  | counterUpdated (count increment : Json) : ApplicationEvent
  | unknown (rawType : String) : ApplicationEvent

/-- The unwrap step of `handleUserEvent` (app.js lines 265–273): two
sequential, independent `if`s over the ORIGINAL argument —
`if (params && params.params) eventData = params.params;`
then `if (params && params.event) eventData = params.event;`. -/
def unwrap (params : Json) : Json :=
  let eventData := params
  let eventData :=
    if truthy params && truthy (getField params "params") then getField params "params"
    else eventData
  let eventData :=
    if truthy params && truthy (getField params "event") then getField params "event"
    else eventData
  eventData

/-- The reserved SDK-internal event type strings (app.js line 283). -/
def internalTypes : List String :=
  ["room.joined", "room.left", "member.joined", "member.left",
   "playback.started", "playback.ended"]

/-- The classification core of `handleUserEvent` (app.js lines 258–327) as
the pure `normalize` function of spec §4.2: unwrap, reject payloads without
a string `type` (`!eventData || typeof eventData.type !== 'string'`), reject
reserved internal types, then map to a variant with `||` defaults. -/
def normalize (params : Json) : Option ApplicationEvent :=
  let eventData := unwrap params
  if !truthy eventData then none
  else
    match getField eventData "type" with
    | .str t =>
        if internalTypes.contains t then none
        else if t = "greeting" then
          some (.greeting (jsOr (getField eventData "name") (.str "Unknown")))
        else if t = "echo" then
          some (.echo (jsOr (getField eventData "message") (.str "")))
        else if t = "counter_updated" then
          some (.counterUpdated (jsOr (getField eventData "count") (.num 0))
                                (jsOr (getField eventData "increment") (.num 1)))
        else some (.unknown t)
    | _ => none

/-- A falsy JS value is never an object, so property access on it yields
`undefined`. -/
theorem getField_of_not_truthy (j : Json) (k : String) (h : truthy j = false) :
    getField j k = .null := by
  cases j <;> simp_all [truthy, getField]

example : normalize (.obj [("type", .str "greeting"), ("name", .str "Ana")])
    = some (.greeting (.str "Ana")) := rfl

example : normalize (.obj [("params", .obj [("type", .str "greeting")])])
    = some (.greeting (.str "Unknown")) := rfl

example : normalize (.obj [("type", .str "room.joined")]) = none := rfl

example : normalize (.str "hello") = none := rfl

/-- One entry of the event log (app.js `logEvent`, lines 362–378).  The
wall-clock timestamp prepended to the rendered entry is display formatting
and is not modelled. -/
structure LogEntry where
  kind : String
  message : String
deriving Repr, DecidableEq

/-- The `while (eventLogEl.children.length > 50) removeChild(firstChild)`
loop of `logEvent`: evict from the front while more than 50 entries. -/
def evict : List LogEntry → List LogEntry
  | [] => []
  | e :: rest => if (e :: rest).length > 50 then evict rest else e :: rest

/-- `logEvent(type, message)` (app.js lines 362–378): append the new entry at
the end, then evict from the front down to 50 entries. -/
def logEvent (log : List LogEntry) (kind message : String) : List LogEntry :=
  evict (log ++ [⟨kind, message⟩])

/-- The mutable globals of app.js (lines 24–34) together with the DOM sinks
the code writes: status region class/text, the two buttons' `disabled`
flags, the video placeholder, the three value displays, and the event log. -/
structure AppState where
  client : Option Unit
  roomSession : Option Unit
  currentToken : Json
  currentDestination : Json
  isConnected : Bool
  statusClass : String
  statusText : String
  connectDisabled : Bool
  disconnectDisabled : Bool
  placeholderVisible : Bool
  lastGreeting : String
  lastEcho : String
  counterValue : String
  log : List LogEntry

/-- `updateStatus(state, text)` (app.js lines 341–344). -/
def updateStatus (s : AppState) (cls text : String) : AppState :=
  { s with statusClass := cls, statusText := text }

/-- `updateButtons()` (app.js lines 350–353):
`connectBtn.disabled = isConnected; disconnectBtn.disabled = !isConnected;` -/
def updateButtons (s : AppState) : AppState :=
  { s with connectDisabled := s.isConnected,
           disconnectDisabled := !s.isConnected }

/-- `logEvent` as a state transformer on the full app state. -/
def appendLog (s : AppState) (kind message : String) : AppState :=
  { s with log := logEvent s.log kind message }

/-- `handleDisconnect()` (app.js lines 229–238): clear the connected flag and
the session handle, restore the placeholder, set status to Disconnected,
refresh the buttons. -/
def handleDisconnect (s : AppState) : AppState :=
  updateButtons
    (updateStatus
      { s with isConnected := false,
               roomSession := none,
               placeholderVisible := true }
      "disconnected" "Disconnected")

/-- The `room.joined` handler registered in connect step 5 (app.js
lines 163–174): log, status Connected, set the connected flag, refresh
buttons, hide the placeholder. -/
def roomJoined (s : AppState) : AppState :=
  let s := appendLog s "system" "Connected to agent"
  let s := updateStatus s "connected" "Connected"
  let s := { s with isConnected := true }
  let s := updateButtons s
  { s with placeholderVisible := false }

/-- `disconnect()` (app.js lines 205–223): guard `!isConnected && !roomSession`
logs a notice and returns; otherwise log, status Disconnecting, attempt
`roomSession.hangup()` (its failure is only written to the console — no state
effect either way), then run `handleDisconnect`. -/
def disconnect (s : AppState) : AppState :=
  if !s.isConnected && s.roomSession.isNone then
    appendLog s "system" "Not connected"
  else
    let s := appendLog s "system" "Disconnecting..."
    let s := updateStatus s "disconnecting" "Disconnecting..."
    handleDisconnect s

/-- Outcomes of the six awaited/throwing external operations of `connect`
(app.js lines 74–191): the token fetch+parse (`.ok` gives the parsed JSON
body; `.error` a rejected fetch or parse), client initialization, the three
`client.on` subscriptions (step 3), `client.dial`, the `roomSession.on`
subscriptions (step 5), and `roomSession.start()`. -/
structure ConnectEnv where
  tokenResp : Except String Json
  clientInit : Except String Unit
  clientSubscribe : Except String Unit
  dial : Except String Unit
  sessionSubscribe : Except String Unit
  start : Except String Unit

/-- The `catch` block of `connect` (app.js lines 193–198): log the error with
kind `error`, set status to Error, then run `handleDisconnect`. -/
def connectCatch (s : AppState) (msg : String) : AppState :=
  handleDisconnect
    (updateStatus (appendLog s "error" ("Connection failed: " ++ msg))
      "error" "Connection failed")

/-- `connect()` (app.js lines 65–199).  Guard: if `isConnected`, log
`Already connected` and return.  Otherwise run the six steps in order,
jumping to the catch block (`connectCatch`) at the first failure; a token
response carrying a truthy `error` field is thrown as
`new Error(tokenData.error)` (line 82–84). -/
def connect (env : ConnectEnv) (s : AppState) : AppState :=
  if s.isConnected then
    appendLog s "system" "Already connected"
  else
    let s := updateStatus s "connecting" "Getting token..."
    let s := appendLog s "system" "Fetching authentication token..."
    match env.tokenResp with
    | .error msg => connectCatch s msg
    | .ok tokenData =>
      if truthy (getField tokenData "error") then
        connectCatch s (render (getField tokenData "error"))
      else
        let s := { s with currentToken := getField tokenData "token",
                          currentDestination := getField tokenData "address" }
        let s := appendLog s "system"
          ("Token received, destination: " ++ render (getField tokenData "address"))
        let s := updateStatus s "connecting" "Initializing client..."
        match env.clientInit with
        | .error msg => connectCatch s msg
        | .ok _ =>
          let s := { s with client := some () }
          let s := appendLog s "system" "Client initialized"
          match env.clientSubscribe with
          | .error msg => connectCatch s msg
          | .ok _ =>
            let s := updateStatus s "connecting" "Dialing agent..."
            match env.dial with
            | .error msg => connectCatch s msg
            | .ok _ =>
              let s := { s with roomSession := some () }
              let s := appendLog s "system" "Call initiated, waiting for connection..."
              match env.sessionSubscribe with
              | .error msg => connectCatch s msg
              | .ok _ =>
                match env.start with
                | .error msg => connectCatch s msg
                | .ok _ => appendLog s "system" "Call started successfully"

/-- Whether an `Except` outcome is a failure. -/
def isErr {ε α : Type} : Except ε α → Bool
  | .error _ => true
  | .ok _ => false

/-- A failure is raised at one of the six connect steps: the token fetch
rejects or its body carries a truthy `error` field, or one of the five later
awaited operations rejects. -/
def stepFails (env : ConnectEnv) : Bool :=
  (match env.tokenResp with
   | .error _ => true
   | .ok td => truthy (getField td "error"))
  || isErr env.clientInit || isErr env.clientSubscribe || isErr env.dial
  || isErr env.sessionSubscribe || isErr env.start

/-- The UI-effect part of `handleUserEvent` (app.js lines 289–327), driven by
the classification `normalize`: update the matching display field and append
the matching log entry.  The transient 500/1000 ms highlight classes are
timers, not state, and are not modelled. -/
def handleUserEvent (s : AppState) (params : Json) : AppState :=
  match normalize params with
  | none => s
  | some (.greeting name) =>
      let s := { s with lastGreeting := "Hello, " ++ render name ++ "!" }
      appendLog s "greeting" ("Greeted: " ++ render name)
  | some (.echo message) =>
      let s := { s with lastEcho := "\"" ++ render message ++ "\"" }
      appendLog s "echo" ("Echoed: " ++ render message)
  | some (.counterUpdated count increment) =>
      let s := { s with counterValue := render count }
      appendLog s "counter" ("Counter: " ++ render count ++ " (+" ++ render increment ++ ")")
  | some (.unknown t) =>
      appendLog s "unknown" ("Unknown event: " ++ t)

/-- The state after the startup lines of app.js (lines 24–48 and 386–387):
globals null/false, placeholder visible, two startup log entries. -/
def initialState : AppState where
  client := none
  roomSession := none
  currentToken := .null
  currentDestination := .null
  isConnected := false
  statusClass := "ready"
  statusText := "Ready"
  connectDisabled := false
  disconnectDisabled := true
  placeholderVisible := true
  lastGreeting := "-"
  lastEcho := "-"
  counterValue := "0"
  log := logEvent (logEvent [] "system" "Application loaded")
           "system" "Ready to connect to SignalWire AI agent"

/-- The eviction loop removes exactly the excess entries, from the front. -/
theorem evict_eq_drop (l : List LogEntry) : evict l = l.drop (l.length - 50) := by
  induction l with
  | nil => simp [evict]
  | cons e rest ih =>
    rw [evict]
    by_cases h : (e :: rest).length > 50
    · rw [if_pos h, ih]
      have hlen : (e :: rest).length - 50 = (rest.length - 50) + 1 := by
        simp only [List.length_cons] at h ⊢; omega
      rw [hlen, List.drop_succ_cons]
    · rw [if_neg h]
      have hlen : (e :: rest).length - 50 = 0 := by
        simp only [List.length_cons] at h ⊢; omega
      rw [hlen, List.drop_zero]

/-- `logEvent` drops the oldest excess entries and keeps the rest in order. -/
theorem logEvent_eq_drop (l : List LogEntry) (k m : String) :
    logEvent l k m = (l ++ [LogEntry.mk k m]).drop ((l.length + 1) - 50) := by
  rw [logEvent, evict_eq_drop]; simp

/-- The entry just appended is always the newest (last) entry of the log. -/
theorem logEvent_getLast (l : List LogEntry) (k m : String) :
    (logEvent l k m).getLast? = some (LogEntry.mk k m) := by
  rw [logEvent_eq_drop, List.drop_append_eq_append_drop]
  have h : (l.length + 1) - 50 - l.length = 0 := by omega
  rw [h, List.drop_zero, List.getLast?_concat]

/-- After any append the log length is at most 50, whatever it was before. -/
theorem logEvent_length_le (l : List LogEntry) (k m : String) :
    (logEvent l k m).length ≤ 50 := by
  rw [logEvent_eq_drop, List.length_drop]
  simp only [List.length_append, List.length_cons, List.length_nil]
  omega

/-- A raw event in which both a truthy `params` field and a truthy `event`
field are present. -/
def rawBoth : Json :=
  .obj [("params", .obj [("type", .str "greeting"), ("name", .str "Ana")]),
        ("event", .obj [("type", .str "echo"), ("message", .str "hi")])]

/-- C1: `normalize raw` produces an application event exactly when the
unwrapped working payload carries a string `type` field outside the reserved
set of six lifecycle type strings; for every raw event failing either
condition (missing/non-string `type`, or reserved `type`) it returns `none`.
(A payload carrying a string field is necessarily an object, hence truthy, so
the payload-exists condition is subsumed by the existence of the field.) -/
theorem normalize_some_iff_app_type (raw : Json) :
    (normalize raw).isSome = true ↔
      ∃ t, getField (unwrap raw) "type" = Json.str t ∧ t ∉ internalTypes := by
  cases ht : truthy (unwrap raw) with
  | false =>
      have h0 := getField_of_not_truthy (unwrap raw) "type" ht
      simp [normalize, ht, h0]
  | true =>
      cases hg : getField (unwrap raw) "type" with
      | null => simp [normalize, ht, hg]
      | bool b => simp [normalize, ht, hg]
      | num n => simp [normalize, ht, hg]
      | obj fs => simp [normalize, ht, hg]
      | str t =>
          by_cases hm : t ∈ internalTypes
          · simp [normalize, ht, hg, hm]
          · by_cases h1 : t = "greeting" <;> by_cases h2 : t = "echo" <;>
              by_cases h3 : t = "counter_updated" <;>
              simp [normalize, ht, hg, hm, h1, h2, h3]

/-- C2 counterexample: on a raw event carrying both a truthy `params` field
and a truthy `event` field, the working payload is `raw.event`, not
`raw.params` (the `event` check runs second in app.js lines 268–273 and
overwrites the `params` unwrap), so `normalize` classifies the `event`
payload.  This refutes the claimed precedence of `raw.params`. -/
theorem unwrap_params_precedence_refuted :
    truthy (getField rawBoth "params") = true ∧
    truthy (getField rawBoth "event") = true ∧
    unwrap rawBoth = getField rawBoth "event" ∧
    unwrap rawBoth ≠ getField rawBoth "params" ∧
    normalize rawBoth = some (.echo (.str "hi")) := by
  refine ⟨rfl, rfl, rfl, ?_, rfl⟩
  intro h
  have h2 : getField (unwrap rawBoth) "type"
      = getField (getField rawBoth "params") "type" :=
    congrArg (fun j => getField j "type") h
  have e1 : getField (unwrap rawBoth) "type" = Json.str "echo" := rfl
  have e2 : getField (getField rawBoth "params") "type" = Json.str "greeting" := rfl
  rw [e1, e2] at h2
  have h3 : "echo" = "greeting" := by injection h2
  exact absurd h3 (by decide)

/-- C2 amended: in `normalize`'s unwrap step, `raw.event` takes precedence —
the working payload is `raw.event` whenever `raw` is truthy and carries a
truthy `event` field (even if a `params` field is also present); `raw.params`
is used only when it is truthy and no truthy `event` field exists; otherwise
the raw object itself is the payload.  Both checks inspect the original raw
object, so unwrapping is applied at most one level, never recursively. -/
theorem unwrap_event_precedence (raw : Json) :
    unwrap raw =
      if truthy raw && truthy (getField raw "event") then getField raw "event"
      else if truthy raw && truthy (getField raw "params") then getField raw "params"
      else raw := by
  cases he : truthy raw && truthy (getField raw "event") <;> simp [unwrap, he]

/-- C6: each recognized application type maps to its variant with fields
taken from the payload and `||` defaults applied when a field is absent:
`name → "Unknown"`, `message → ""`, `count → 0`, `increment → 1`; includes
the spec's three concrete examples (direct, `params`-wrapped and
`event`-wrapped). -/
theorem normalize_recognized_defaults :
    normalize (.obj [("type", .str "greeting"), ("name", .str "Ana")])
      = some (.greeting (.str "Ana")) ∧
    normalize (.obj [("params", .obj [("type", .str "greeting")])])
      = some (.greeting (.str "Unknown")) ∧
    normalize (.obj [("event", .obj [("type", .str "counter_updated"), ("count", .num 5)])])
      = some (.counterUpdated (.num 5) (.num 1)) ∧
    (∀ name : Json, normalize (.obj [("type", .str "greeting"), ("name", name)])
      = some (.greeting (jsOr name (.str "Unknown")))) ∧
    (∀ message : Json, normalize (.obj [("type", .str "echo"), ("message", message)])
      = some (.echo (jsOr message (.str "")))) ∧
    (∀ count increment : Json,
      normalize (.obj [("type", .str "counter_updated"),
                       ("count", count), ("increment", increment)])
      = some (.counterUpdated (jsOr count (.num 0)) (jsOr increment (.num 1)))) ∧
    normalize (.obj [("type", .str "echo")]) = some (.echo (.str "")) ∧
    normalize (.obj [("type", .str "counter_updated")])
      = some (.counterUpdated (.num 0) (.num 1)) :=
  ⟨rfl, rfl, rfl, fun _ => rfl, fun _ => rfl, fun _ _ => rfl, rfl, rfl⟩

/-- C7: a string `type` outside both the reserved lifecycle set and the
recognized application types produces `unknown` carrying the raw type string
— surfaced, never silently dropped. -/
theorem normalize_unknown_surfaced (p : Json) (t : String)
    (h1 : getField (unwrap p) "type" = Json.str t)
    (h2 : t ∉ internalTypes)
    (h3 : t ≠ "greeting") (h4 : t ≠ "echo") (h5 : t ≠ "counter_updated") :
    normalize p = some (.unknown t) := by
  have ht : truthy (unwrap p) = true := by
    cases h' : truthy (unwrap p) with
    | false =>
        rw [getField_of_not_truthy _ _ h'] at h1
        exact Json.noConfusion h1
    | true => rfl
  simp [normalize, ht, h1, h2, h3, h4, h5]

/-- C7 witness: `normalize({type:"foobar"})` is `unknown "foobar"`. -/
theorem normalize_unknown_surfaced_witness :
    getField (unwrap (Json.obj [("type", Json.str "foobar")])) "type"
      = Json.str "foobar" ∧
    "foobar" ∉ internalTypes ∧
    normalize (Json.obj [("type", Json.str "foobar")])
      = some (.unknown "foobar") :=
  ⟨rfl, by decide,
    normalize_unknown_surfaced _ "foobar" rfl (by decide)
      (by decide) (by decide) (by decide)⟩

/-- C10: the `||` defaults fire on any falsy present value, not only on
absent fields: an empty-string `name` yields `"Unknown"`, a zero `increment`
yields `1` (and a zero `count` stays `0`, equal to its default). -/
theorem normalize_falsy_field_defaults :
    normalize (.obj [("type", .str "greeting"), ("name", .str "")])
      = some (.greeting (.str "Unknown")) ∧
    normalize (.obj [("type", .str "counter_updated"),
                     ("count", .num 0), ("increment", .num 0)])
      = some (.counterUpdated (.num 0) (.num 1)) ∧
    (∀ v : Json, truthy v = false →
      normalize (.obj [("type", .str "greeting"), ("name", v)])
        = some (.greeting (.str "Unknown"))) ∧
    (∀ v : Json, truthy v = false →
      normalize (.obj [("type", .str "counter_updated"), ("increment", v)])
        = some (.counterUpdated (.num 0) (.num 1))) := by
  refine ⟨rfl, rfl, fun v hv => ?_, fun v hv => ?_⟩
  · have h : normalize (Json.obj [("type", Json.str "greeting"), ("name", v)])
        = some (.greeting (jsOr v (.str "Unknown"))) := rfl
    rw [h]; simp [jsOr, hv]
  · have h : normalize (Json.obj [("type", Json.str "counter_updated"), ("increment", v)])
        = some (.counterUpdated (.num 0) (jsOr v (.num 1))) := rfl
    rw [h]; simp [jsOr, hv]

/-- C10 witness: the falsy-default behaviour at `name = ""` (a present but
falsy field) and `increment = 0`. -/
theorem normalize_falsy_field_defaults_witness :
    truthy (Json.str "") = false ∧
    normalize (Json.obj [("type", Json.str "greeting"), ("name", Json.str "")])
      = some (.greeting (.str "Unknown")) ∧
    truthy (Json.num 0) = false ∧
    normalize (Json.obj [("type", Json.str "counter_updated"), ("increment", Json.num 0)])
      = some (.counterUpdated (.num 0) (.num 1)) :=
  ⟨rfl, normalize_falsy_field_defaults.2.2.1 (Json.str "") rfl,
   rfl, normalize_falsy_field_defaults.2.2.2 (Json.num 0) rfl⟩

/-- The catch block always hands a state with Error status and a freshly
logged `error` entry to the teardown path, which settles it Disconnected. -/
theorem connectCatch_shape (s : AppState) (msg : String) :
    ∃ s₂, connectCatch s msg = handleDisconnect s₂ ∧
      s₂.statusClass = "error" ∧ s₂.statusText = "Connection failed" ∧
      s₂.log.getLast? = some (LogEntry.mk "error" ("Connection failed: " ++ msg)) ∧
      (connectCatch s msg).isConnected = false ∧
      (connectCatch s msg).roomSession = none ∧
      (connectCatch s msg).statusClass = "disconnected" ∧
      (connectCatch s msg).statusText = "Disconnected" := by
  refine ⟨updateStatus (appendLog s "error" ("Connection failed: " ++ msg))
      "error" "Connection failed", rfl, rfl, rfl, ?_, rfl, rfl, rfl, rfl⟩
  show (logEvent s.log "error" ("Connection failed: " ++ msg)).getLast? = _
  exact logEvent_getLast _ _ _

/-- C3: a failure raised at any of the six connect steps (token fetch
rejecting or returning a truthy `error` field, client initialization, client
event subscription, dial, session subscription, start) makes `connect` log
the error with kind `error`, set the status to Error, and then run the
teardown path, so the final state is Disconnected — never stuck at Connecting
or Error. -/
theorem connect_failure_settles_disconnected (env : ConnectEnv) (s : AppState)
    (hc : s.isConnected = false) (hf : stepFails env = true) :
    ∃ s₂ msg,
      connect env s = handleDisconnect s₂ ∧
      s₂.statusClass = "error" ∧ s₂.statusText = "Connection failed" ∧
      s₂.log.getLast? = some (LogEntry.mk "error" ("Connection failed: " ++ msg)) ∧
      (connect env s).isConnected = false ∧
      (connect env s).roomSession = none ∧
      (connect env s).statusClass = "disconnected" ∧
      (connect env s).statusText = "Disconnected" := by
  unfold connect
  rw [if_neg (by simp [hc])]
  cases htr : env.tokenResp with
  | error msg =>
      simp only [htr]
      obtain ⟨s₂, h1, h2, h3, h4, h5, h6, h7, h8⟩ := connectCatch_shape _ msg
      exact ⟨s₂, msg, h1, h2, h3, h4, h5, h6, h7, h8⟩
  | ok td =>
      simp only [htr]
      cases herr : truthy (getField td "error") with
      | true =>
          rw [if_pos rfl]
          obtain ⟨s₂, h1, h2, h3, h4, h5, h6, h7, h8⟩ :=
            connectCatch_shape _ (render (getField td "error"))
          exact ⟨s₂, render (getField td "error"), h1, h2, h3, h4, h5, h6, h7, h8⟩
      | false =>
          rw [if_neg (by simp)]
          cases hci : env.clientInit with
          | error msg =>
              simp only [hci]
              obtain ⟨s₂, h1, h2, h3, h4, h5, h6, h7, h8⟩ := connectCatch_shape _ msg
              exact ⟨s₂, msg, h1, h2, h3, h4, h5, h6, h7, h8⟩
          | ok u =>
              simp only [hci]
              cases hcs : env.clientSubscribe with
              | error msg =>
                  simp only [hcs]
                  obtain ⟨s₂, h1, h2, h3, h4, h5, h6, h7, h8⟩ := connectCatch_shape _ msg
                  exact ⟨s₂, msg, h1, h2, h3, h4, h5, h6, h7, h8⟩
              | ok u2 =>
                  simp only [hcs]
                  cases hdl : env.dial with
                  | error msg =>
                      simp only [hdl]
                      obtain ⟨s₂, h1, h2, h3, h4, h5, h6, h7, h8⟩ := connectCatch_shape _ msg
                      exact ⟨s₂, msg, h1, h2, h3, h4, h5, h6, h7, h8⟩
                  | ok u3 =>
                      simp only [hdl]
                      cases hss : env.sessionSubscribe with
                      | error msg =>
                          simp only [hss]
                          obtain ⟨s₂, h1, h2, h3, h4, h5, h6, h7, h8⟩ := connectCatch_shape _ msg
                          exact ⟨s₂, msg, h1, h2, h3, h4, h5, h6, h7, h8⟩
                      | ok u4 =>
                          simp only [hss]
                          cases hst : env.start with
                          | error msg =>
                              simp only [hst]
                              obtain ⟨s₂, h1, h2, h3, h4, h5, h6, h7, h8⟩ := connectCatch_shape _ msg
                              exact ⟨s₂, msg, h1, h2, h3, h4, h5, h6, h7, h8⟩
                          | ok u5 =>
                              exfalso
                              simp [stepFails, isErr, htr, herr, hci, hcs, hdl, hss, hst] at hf

/-- A connect environment in which the token fetch itself rejects and every
later step would succeed. -/
def envTokenFail : ConnectEnv where
  tokenResp := .error "network down"
  clientInit := .ok ()
  clientSubscribe := .ok ()
  dial := .ok ()
  sessionSubscribe := .ok ()
  start := .ok ()

/-- C3 witness: injecting a token-fetch failure into a fresh state ends
Disconnected with the error logged. -/
theorem connect_failure_settles_disconnected_witness :
    initialState.isConnected = false ∧
    stepFails envTokenFail = true ∧
    (∃ s₂ msg,
      connect envTokenFail initialState = handleDisconnect s₂ ∧
      s₂.statusClass = "error" ∧ s₂.statusText = "Connection failed" ∧
      s₂.log.getLast? = some (LogEntry.mk "error" ("Connection failed: " ++ msg)) ∧
      (connect envTokenFail initialState).isConnected = false ∧
      (connect envTokenFail initialState).roomSession = none ∧
      (connect envTokenFail initialState).statusClass = "disconnected" ∧
      (connect envTokenFail initialState).statusText = "Disconnected") :=
  ⟨rfl, rfl, connect_failure_settles_disconnected envTokenFail initialState rfl rfl⟩

/-- `disconnect` on a state that is already disconnected with no session
handle only logs a notice. -/
theorem disconnect_noop_when_disconnected (s : AppState)
    (h1 : s.isConnected = false) (h2 : s.roomSession = none) :
    disconnect s = appendLog s "system" "Not connected" := by
  unfold disconnect
  rw [if_pos (by simp [h1, h2])]

/-- C5: the teardown path and `disconnect()` are idempotent: after any
`disconnect` from a live state the session handle is cleared and the state is
Disconnected; a repeated `disconnect` only logs `Not connected` and changes
nothing else; and running `handleDisconnect` twice equals running it once.
(All these are total Lean functions — no invocation can throw.) -/
theorem disconnect_idempotent_settles (s : AppState)
    (h : s.isConnected = true ∨ s.roomSession.isSome = true) :
    (disconnect s).isConnected = false ∧
    (disconnect s).roomSession = none ∧
    (disconnect s).statusClass = "disconnected" ∧
    (disconnect s).statusText = "Disconnected" ∧
    disconnect (disconnect s) = appendLog (disconnect s) "system" "Not connected" ∧
    (∀ t, handleDisconnect (handleDisconnect t) = handleDisconnect t) := by
  have hguard : (!s.isConnected && s.roomSession.isNone) = false := by
    rcases h with h | h
    · simp [h]
    · have : s.roomSession.isNone = false := by
        cases hr : s.roomSession
        · rw [hr] at h; simp at h
        · rfl
      simp [this]
  have d1 : disconnect s =
      handleDisconnect
        (updateStatus (appendLog s "system" "Disconnecting...")
          "disconnecting" "Disconnecting...") := by
    unfold disconnect
    rw [if_neg (by simp [hguard])]
  refine ⟨?_, ?_, ?_, ?_, ?_, fun t => rfl⟩
  · rw [d1]; rfl
  · rw [d1]; rfl
  · rw [d1]; rfl
  · rw [d1]; rfl
  · apply disconnect_noop_when_disconnected
    · rw [d1]; rfl
    · rw [d1]; rfl

/-- A state holding an active connected session. -/
def connectedState : AppState :=
  { initialState with
      client := some (), roomSession := some (), isConnected := true,
      statusClass := "connected", statusText := "Connected",
      connectDisabled := true, disconnectDisabled := false,
      placeholderVisible := false }

/-- C5 witness: two successive disconnects from a connected state. -/
theorem disconnect_idempotent_settles_witness :
    (connectedState.isConnected = true ∨ connectedState.roomSession.isSome = true) ∧
    ((disconnect connectedState).isConnected = false ∧
     (disconnect connectedState).roomSession = none ∧
     (disconnect connectedState).statusClass = "disconnected" ∧
     (disconnect connectedState).statusText = "Disconnected" ∧
     disconnect (disconnect connectedState)
       = appendLog (disconnect connectedState) "system" "Not connected" ∧
     (∀ t, handleDisconnect (handleDisconnect t) = handleDisconnect t)) :=
  ⟨Or.inl rfl, disconnect_idempotent_settles connectedState (Or.inl rfl)⟩

/-- A connect environment in which every step would succeed. -/
def envAllOk : ConnectEnv where
  tokenResp := .ok (Json.obj [("token", .str "tok"), ("address", .str "/public/agent")])
  clientInit := .ok ()
  clientSubscribe := .ok ()
  dial := .ok ()
  sessionSubscribe := .ok ()
  start := .ok ()

/-- The state after a fully successful `connect` whose `room.joined`
notification has not yet fired: the session handle is set (app.js line 132)
but `isConnected` is still false — that flag is only set inside the
`room.joined` handler (line 166), which arrives asynchronously. -/
def sessionNotJoined : AppState := connect envAllOk initialState

/-- C8 counterexample: a state in which an active session exists
(`roomSession` set) but the state is not yet Connected (`room.joined` not
fired).  The guard at app.js line 66 checks only `isConnected`, so
`connect()` invoked here is NOT a no-op: it re-runs the six steps (the
newest log entry afterwards is `Call started successfully`, not the
`Already connected` notice), refuting the claim's parenthetical
"or any state implying an active session exists". -/
theorem connect_noop_refuted_session_active :
    sessionNotJoined.roomSession = some () ∧
    sessionNotJoined.isConnected = false ∧
    connect envAllOk sessionNotJoined
      ≠ appendLog sessionNotJoined "system" "Already connected" ∧
    (connect envAllOk sessionNotJoined).log.getLast?
      = some (LogEntry.mk "system" "Call started successfully") := by
  refine ⟨rfl, rfl, ?_, rfl⟩
  intro h
  have h2 : (connect envAllOk sessionNotJoined).log.getLast?
      = (appendLog sessionNotJoined "system" "Already connected").log.getLast? :=
    congrArg (fun st => st.log.getLast?) h
  have e1 : (connect envAllOk sessionNotJoined).log.getLast?
      = some (LogEntry.mk "system" "Call started successfully") := rfl
  have e2 : (appendLog sessionNotJoined "system" "Already connected").log.getLast?
      = some (LogEntry.mk "system" "Already connected") := rfl
  rw [e1, e2] at h2
  exact absurd h2 (by decide)

/-- C8 amended: `connect()` invoked while the connected flag is set (state
Connected, i.e. after `room.joined` has fired) only appends the logged
notice `Already connected`: none of the six steps run, and the connection
flag, session handle, client, credentials and status are all unchanged.
The guard checks exactly this flag, not the session handle. -/
theorem connect_noop_when_connected (env : ConnectEnv) (s : AppState)
    (h : s.isConnected = true) :
    connect env s = appendLog s "system" "Already connected" ∧
    (connect env s).isConnected = s.isConnected ∧
    (connect env s).roomSession = s.roomSession ∧
    (connect env s).client = s.client ∧
    (connect env s).currentToken = s.currentToken ∧
    (connect env s).currentDestination = s.currentDestination ∧
    (connect env s).statusClass = s.statusClass ∧
    (connect env s).statusText = s.statusText := by
  have hc : connect env s = appendLog s "system" "Already connected" := by
    unfold connect
    rw [if_pos h]
  refine ⟨hc, ?_, ?_, ?_, ?_, ?_, ?_, ?_⟩ <;> rw [hc] <;> rfl

/-- C8 witness: `connect` on the connected state with an all-succeeding
environment only logs the notice. -/
theorem connect_noop_when_connected_witness :
    connectedState.isConnected = true ∧
    connect envAllOk connectedState
      = appendLog connectedState "system" "Already connected" ∧
    (connect envAllOk connectedState).roomSession = connectedState.roomSession :=
  ⟨rfl, (connect_noop_when_connected envAllOk connectedState rfl).1,
    (connect_noop_when_connected envAllOk connectedState rfl).2.2.1⟩

/-- C9: the button projection of the connection state: the connect button is
enabled (not disabled) iff the state is not Connected, and the disconnect
button is enabled iff the state is Connected — both after the pure
`updateButtons` projection and after the two observed transitions that
change the connected flag (`room.joined` and the teardown path), which both
end by calling `updateButtons`. -/
theorem button_enablement_invariant (s : AppState) :
    ((!(updateButtons s).connectDisabled) = !s.isConnected) ∧
    ((!(updateButtons s).disconnectDisabled) = s.isConnected) ∧
    ((!(roomJoined s).connectDisabled) = !(roomJoined s).isConnected) ∧
    ((!(roomJoined s).disconnectDisabled) = (roomJoined s).isConnected) ∧
    ((!(handleDisconnect s).connectDisabled) = !(handleDisconnect s).isConnected) ∧
    ((!(handleDisconnect s).disconnectDisabled) = (handleDisconnect s).isConnected) := by
  refine ⟨rfl, ?_, rfl, rfl, rfl, rfl⟩
  simp [updateButtons]

/-- The event log after 51 sequential appends (messages "1" … "51") starting
from an empty log. -/
def logAfter51 : List LogEntry :=
  (List.range 51).foldl (fun acc i => logEvent acc "system" (toString (i + 1))) []

/-- C4: after every append the log holds at most 50 entries (whatever held
before), eviction is strictly FIFO from the front (an append is exactly an
append-at-end followed by dropping the oldest excess entries, and the new
entry is always the newest); appending 51 entries to an empty log leaves
exactly 50, with the 1st evicted and the 51st present as the newest. -/
theorem eventLog_capacity_fifo :
    (∀ (l : List LogEntry) (k m : String), (logEvent l k m).length ≤ 50) ∧
    (∀ (l : List LogEntry) (k m : String),
       logEvent l k m = (l ++ [LogEntry.mk k m]).drop ((l.length + 1) - 50)) ∧
    (∀ (l : List LogEntry) (k m : String),
       (logEvent l k m).getLast? = some (LogEntry.mk k m)) ∧
    logAfter51.length = 50 ∧
    logAfter51.head? = some (LogEntry.mk "system" "2") ∧
    logAfter51.getLast? = some (LogEntry.mk "system" "51") ∧
    LogEntry.mk "system" "1" ∉ logAfter51 :=
  ⟨logEvent_length_le, logEvent_eq_drop, logEvent_getLast,
   by decide, by decide, by decide, by decide⟩

end App
